import Mathlib

/-!
Verification of the token-refresh coordination subsystem of the prompt-lab
web client. The definitions below are a shallow embedding of
`src/frontend/src/features/auth/model/attachTokenRefresh.js`,
`src/frontend/src/features/auth/model/useAuth.jsx` and the `AuthProvider`
wiring (the `attachTokenRefresh(auth.setAccessToken, onRefreshFail)` call
whose second argument clears the storages and nulls the in-memory access
token). The single-threaded event-loop semantics of the JavaScript runtime
is modelled by treating the synchronous segment of the interceptor — from
the moment a rejected response is observed up to the first `await` — as one
atomic step on the coordinator state.
-/

namespace PromptLab

/-- HTTP response attached to an axios rejection; only the status code is
consulted by the interceptor. -/
structure HttpResponse where
  status : Nat
  deriving DecidableEq

/-- Request configuration (the axios `config` object): the request url, the
one-shot retry mark `config._retry`, and the `headers.Authorization` value
(`none` when the header is absent). -/
structure Config where
  url : String
  retry : Bool
  auth : Option String
  deriving DecidableEq

/-- An axios rejection object: the failing request's config and the server
response, which is `none` on a network failure. -/
structure AxiosError where
  config : Config
  response : Option HttpResponse
  deriving DecidableEq

/-- Errors the coordinator can reject a caller with: either a forwarded
axios error or a JavaScript `Error` created with `new Error(msg)`. -/
inductive Err where
  | http (e : AxiosError)
  | js (msg : String)
  deriving DecidableEq

/-- Observable side effects of the interceptor, in program order:
invoking the refresh exchange (`refreshApi()`), invoking the forced-logout
callback (`onRefreshFail?.()`), updating the in-memory token
(`setAccessToken`), writing the session-scoped storage
(`sessionStorage.setItem('access_token', …)`), re-issuing a request
(`api(config)`), rejecting a queued pending request, and rejecting the
triggering request's caller (the rethrow out of the handler). -/
inductive Effect where
  | invokeRefresh
  | onRefreshFail
  | setAccessToken (t : String)
  | sessionSetToken (t : String)
  | issue (c : Config)
  | rejectPending (c : Config) (e : Err)
  | rejectTrigger (e : Err)
  deriving DecidableEq

/-- Outcome of one run of the rejection handler for a single error:
`passthrough` rethrows the original error without touching anything,
`rejectOriginal` rethrows it after the terminal checks fired, `queued`
suspends the caller on the pending queue, `trigger` makes this request the
one that starts the refresh exchange. -/
inductive Outcome where
  | passthrough
  | rejectOriginal
  | queued
  | trigger
  deriving DecidableEq

/-- Module-level mutable state of `attachTokenRefresh.js`: the single-flight
flag `isRefreshing` and the FIFO `queue` of pending requests (each queue
entry is represented by the config its closures captured). -/
structure CoordState where
  isRefreshing : Bool
  queue : List Config
  deriving DecidableEq

/-- The initial (Idle) coordinator state: `isRefreshing = false`, empty queue. -/
def idle : CoordState := ⟨false, []⟩

/-- Suffix test on strings, modelling JavaScript `String.prototype.endsWith`
as used in `config.url?.endsWith('/login')`. -/
def urlEndsWith (s p : String) : Bool :=
  List.isSuffixOf p.data s.data

/-- The guard `!response || response.status !== 401` inverted: the error is
an authorization error iff a response exists and its status is 401. -/
def isAuthError (e : AxiosError) : Bool :=
  match e.response with
  | none => false
  | some r => r.status == 401

/-- The guard `config.url?.endsWith('/login') || config.url?.endsWith('/refresh')`. -/
def isAuthUrl (c : Config) : Bool :=
  urlEndsWith c.url "/login" || urlEndsWith c.url "/refresh"

/-- The assignment `config._retry = true`. -/
def markRetry (c : Config) : Config := { c with retry := true }

/-- The assignment `config.headers.Authorization = ` the string
`Bearer <t>` (a backtick template in the source). -/
def withAuth (t : String) (c : Config) : Config :=
  { c with auth := some ("Bearer " ++ t) }

/-- Result of one atomic run of the rejection handler: the outcome for the
caller, the request's config as it stands after the handler's synchronous
segment, the new coordinator state, and the effects emitted. -/
structure StepResult where
  outcome : Outcome
  config : Config
  state : CoordState
  effects : List Effect
  deriving DecidableEq

/-- The synchronous segment of the response-error handler installed by
`attachTokenRefresh` (lines 15–42 of `attachTokenRefresh.js`): the 401
check, the login/refresh-url check, the `config._retry` check, marking the
request, and either enqueueing (when `isRefreshing`) or setting
`isRefreshing = true` and invoking the refresh exchange. Everything here
happens before the first `await`, hence in one atomic step. -/
def interceptError (s : CoordState) (e : AxiosError) : StepResult :=
  if !isAuthError e then ⟨.passthrough, e.config, s, []⟩
  else if isAuthUrl e.config then ⟨.rejectOriginal, e.config, s, [.onRefreshFail]⟩
  else if e.config.retry then ⟨.rejectOriginal, e.config, s, [.onRefreshFail]⟩
  else
    let c := markRetry e.config
    if s.isRefreshing then
      ⟨.queued, c, { s with queue := s.queue ++ [c] }, []⟩
    else
      ⟨.trigger, c, { s with isRefreshing := true }, [.invokeRefresh]⟩

/-- Settlement of the awaited refresh exchange, as seen by the triggering
handler: `success body` is a resolved `refreshApi()` whose
`data?.data?.access_token` is `body`; `failure e` is a rejected call. -/
inductive RefreshResult where
  | success (body : Option String)
  | failure (e : AxiosError)
  deriving DecidableEq

/-- The message of the `Error` thrown when the refresh response carries no
access token (line 46 of `attachTokenRefresh.js`). -/
def noTokenMsg : String := "No access token in refresh response"

/-- Lines 44–61 of `attachTokenRefresh.js`: the continuation after
`await refreshApi()` settles, given the coordinator state accumulated while
the refresh was in flight and the triggering request's config. On success
with a token: `setAccessToken`, the session-storage write, `processQueue`
resolving each pending entry (whose closure sets the bearer header and
re-issues `api(config)`, in queue order), then the trigger's header is set
and the trigger re-issued. On a missing token or a rejected call: the
`catch` block — `processQueue` rejecting each pending entry in queue order,
then `onRefreshFail?.()`, then the rethrow to the triggering caller. The
`finally` block resets `isRefreshing` in every case. -/
def settleRefresh (s : CoordState) (trigger : Config) (r : RefreshResult) :
    CoordState × List Effect :=
  match r with
  | .success (some t) =>
      (⟨false, []⟩,
        [.setAccessToken t, .sessionSetToken t]
          ++ s.queue.map (fun c => .issue (withAuth t c))
          ++ [.issue (withAuth t trigger)])
  | .success none =>
      (⟨false, []⟩,
        s.queue.map (fun c => .rejectPending c (.js noTokenMsg))
          ++ [.onRefreshFail, .rejectTrigger (.js noTokenMsg)])
  | .failure e =>
      (⟨false, []⟩,
        s.queue.map (fun c => .rejectPending c (.http e))
          ++ [.onRefreshFail, .rejectTrigger (.http e)])

/-- Sequentially run the rejection handler on a list of errors, each handler
run being one atomic event-loop turn; returns the final state and the
concatenated effects. -/
def runErrors : CoordState → List AxiosError → CoordState × List Effect
  | s, [] => (s, [])
  | s, e :: es =>
    let r := interceptError s e
    let rest := runErrors r.state es
    (rest.1, r.effects ++ rest.2)

/-- A refreshable failure: an authorization error on a protected url whose
request does not yet carry the retry mark. -/
def eligible (e : AxiosError) : Bool :=
  isAuthError e && !isAuthUrl e.config && !e.config.retry

/-- The request config axios builds for the refresh exchange itself
(`api.post('/refresh')` in the auth api module): url `/refresh`, no retry
mark. Whatever bearer header the request interceptor may attach is
irrelevant here because the response handler decides on the url (and the
status) before consulting any other config field. -/
def refreshConfig : Config := ⟨"/refresh", false, none⟩

/-- The rejection produced when the refresh exchange itself returns
status 401. -/
def refresh401 : AxiosError := ⟨refreshConfig, some ⟨401⟩⟩

/-- One whole refresh episode: request `e` fails first (from Idle), the
errors in `rest` arrive while the refresh exchange is in flight, then the
refresh settles with result `r`. `refreshApi()` runs on the same axios
instance, so a rejection of the refresh call itself first passes through
the same response interceptor — as the error of a request whose config is
`refreshConfig` — before the triggering handler's `catch` resumes: on a
401 that pass hits the `/refresh` url branch (forced-logout callback,
rethrow), otherwise the non-401 guard rethrows it untouched; either way it
never reaches the retry/queue logic. Returns the final coordinator state
and all effects in order. -/
def episode (e : AxiosError) (rest : List AxiosError) (r : RefreshResult) :
    CoordState × List Effect :=
  let step := interceptError idle e
  let mid := runErrors step.state rest
  match r with
  | .success body =>
      let fin := settleRefresh mid.1 step.config (.success body)
      (fin.1, step.effects ++ (mid.2 ++ fin.2))
  | .failure err =>
      let pass := interceptError mid.1 ⟨refreshConfig, err.response⟩
      let fin := settleRefresh pass.state step.config (.failure err)
      (fin.1, step.effects ++ (mid.2 ++ (pass.effects ++ fin.2)))

/-- The configs of the requests re-issued by `api(config)`, in issuance order. -/
def issuedConfigs (fx : List Effect) : List Config :=
  fx.filterMap fun f =>
    match f with
    | .issue c => some c
    | _ => none

/-- The configs of the queued pending requests that were rejected, in
rejection order. -/
def rejectedConfigs (fx : List Effect) : List Config :=
  fx.filterMap fun f =>
    match f with
    | .rejectPending c _ => some c
    | _ => none

/-- Recognises the refresh-exchange invocation effect. -/
def isInvoke : Effect → Bool
  | .invokeRefresh => true
  | _ => false

/-- Recognises the forced-logout (session teardown) effect. -/
def isTeardown : Effect → Bool
  | .onRefreshFail => true
  | _ => false

/-- One Web Storage area, restricted to the three keys the session layer
uses: `access_token`, `user` (the serialised user record) and
`auth_storage` (the durability flag, only ever written in localStorage). -/
structure WebStorage where
  accessToken : Option String
  userJson : Option String
  authStorage : Option String
  deriving DecidableEq

/-- The browser-visible session state: the persistent durability
(`localStorage`), the ephemeral durability (`sessionStorage`), and the
in-memory React state `accessToken` / `user` owned by `useAuth`. -/
structure Browser where
  localStore : WebStorage
  sessionStore : WebStorage
  memToken : Option String
  memUser : Option String
  deriving DecidableEq

/-- `getStorage()` of `useAuth.jsx` (lines 9–12): reads the
`auth_storage` flag from localStorage, defaulting to `'session'`, and
selects localStorage exactly when the flag is `'local'`. Returns `true`
when the persistent durability is selected. -/
def getStorageIsLocal (b : Browser) : Bool :=
  (b.localStore.authStorage.getD "session") == "local"

/-- The storage read performed by `useAuth`'s mount effect (lines 18–24):
consult `getStorage()` and read the access token and user record from the
selected durability. -/
def readStore (b : Browser) : Option String × Option String :=
  let s := if getStorageIsLocal b then b.localStore else b.sessionStore
  (s.accessToken, s.userJson)

/-- The success path of `signIn` (`useAuth.jsx` lines 26–38) after the
login exchange returned access token `tok` and user record `uJson`:
choose the storage by `keep`, write the `auth_storage` flag to
localStorage, set the in-memory token and user, and write the token and
user record into the chosen storage. -/
def signInStore (b : Browser) (tok uJson : String) (keep : Bool) : Browser :=
  let b1 : Browser :=
    { b with
      localStore := { b.localStore with
        authStorage := some (if keep then "local" else "session") },
      memToken := some tok, memUser := some uJson }
  if keep then
    { b1 with localStore := { b1.localStore with
        accessToken := some tok, userJson := some uJson } }
  else
    { b1 with sessionStore := { b1.sessionStore with
        accessToken := some tok, userJson := some uJson } }

/-- The local effect of `signOut` (`useAuth.jsx` lines 40–49), after the
best-effort logout exchange whose outcome is ignored: null the in-memory
token and user, remove the token and user record from both storages, and
remove the `auth_storage` flag from localStorage. -/
def signOutStore (b : Browser) : Browser :=
  { b with
    memToken := none, memUser := none,
    sessionStore := { b.sessionStore with accessToken := none, userJson := none },
    localStore := { b.localStore with
      accessToken := none, userJson := none, authStorage := none } }

/-- The `onRefreshFail` callback that `AuthProvider` passes to
`attachTokenRefresh`: remove `access_token` and `user` from both storages,
remove `auth_storage` from localStorage, and null the in-memory access
token. Note it does not touch the in-memory user record. -/
def onForcedLogoutStore (b : Browser) : Browser :=
  { b with
    sessionStore := { b.sessionStore with accessToken := none, userJson := none },
    localStore := { b.localStore with
      accessToken := none, userJson := none, authStorage := none },
    memToken := none }

/-- Lines 48–49 of `attachTokenRefresh.js`, the credential update on
refresh success: `setAccessToken(newAccess)` and
`sessionStorage.setItem('access_token', newAccess)`. The write always
targets the session-scoped storage. -/
def refreshSuccessStore (b : Browser) (tok : String) : Browser :=
  { b with
    memToken := some tok,
    sessionStore := { b.sessionStore with accessToken := some tok } }

/-- A Web Storage area with none of the three keys present. -/
def emptyStorage : WebStorage := ⟨none, none, none⟩

/-- A fresh browser: both storages empty, no in-memory credential. -/
def emptyBrowser : Browser := ⟨emptyStorage, emptyStorage, none, none⟩

/-- A protected-endpoint request failing with status 401 and no retry mark. -/
def failA : AxiosError := ⟨⟨"/api/projects", false, some "Bearer T1"⟩, some ⟨401⟩⟩

/-- A second protected-endpoint request failing with status 401. -/
def failB : AxiosError := ⟨⟨"/api/cases", false, some "Bearer T1"⟩, some ⟨401⟩⟩

/-- A request that already carries the retry mark and fails again with 401. -/
def retriedReq : AxiosError := ⟨⟨"/api/projects", true, some "Bearer T2"⟩, some ⟨401⟩⟩

/-- A network failure: the axios error carries no response object. -/
def netFail : AxiosError := ⟨⟨"/api/projects", false, some "Bearer T1"⟩, none⟩

end PromptLab

namespace PromptLab

lemma eligible_iff {e : AxiosError} :
    eligible e = true ↔
      isAuthError e = true ∧ isAuthUrl e.config = false ∧ e.config.retry = false := by
  simp [eligible, and_assoc]

lemma interceptError_busy {s : CoordState} {e : AxiosError}
    (hs : s.isRefreshing = true) (he : eligible e = true) :
    interceptError s e =
      ⟨.queued, markRetry e.config, ⟨true, s.queue ++ [markRetry e.config]⟩, []⟩ := by
  rcases eligible_iff.mp he with ⟨h1, h2, h3⟩
  simp [interceptError, h1, h2, h3, hs]

lemma interceptError_trigger {s : CoordState} {e : AxiosError}
    (hs : s.isRefreshing = false) (he : eligible e = true) :
    interceptError s e =
      ⟨.trigger, markRetry e.config, ⟨true, s.queue⟩, [.invokeRefresh]⟩ := by
  rcases eligible_iff.mp he with ⟨h1, h2, h3⟩
  simp [interceptError, h1, h2, h3, hs]

lemma runErrors_busy (es : List AxiosError) :
    ∀ s : CoordState, s.isRefreshing = true → (∀ x ∈ es, eligible x = true) →
      runErrors s es =
        (⟨true, s.queue ++ es.map (fun x => markRetry x.config)⟩, []) := by
  induction es with
  | nil =>
      intro s hs _
      cases s with
      | mk f q => simp_all [runErrors]
  | cons e es ih =>
      intro s hs hall
      have he : eligible e = true := hall e (by simp)
      have hrest : ∀ x ∈ es, eligible x = true := fun x hx => hall x (by simp [hx])
      rw [runErrors, interceptError_busy hs he]
      rw [show (⟨Outcome.queued, markRetry e.config,
            ⟨true, s.queue ++ [markRetry e.config]⟩, []⟩ : StepResult).state
          = ⟨true, s.queue ++ [markRetry e.config]⟩ from rfl]
      rw [ih ⟨true, s.queue ++ [markRetry e.config]⟩ rfl hrest]
      simp

lemma settle_state (s : CoordState) (c : Config) (r : RefreshResult) :
    (settleRefresh s c r).1 = idle := by
  rcases r with body | e
  · rcases body with _ | t <;> rfl
  · rfl

lemma isAuthError_refresh (err : AxiosError) :
    isAuthError ⟨refreshConfig, err.response⟩ = isAuthError err := rfl

lemma interceptError_refresh (s : CoordState) (resp : Option HttpResponse) :
    interceptError s ⟨refreshConfig, resp⟩
      = ⟨if isAuthError ⟨refreshConfig, resp⟩ = true then Outcome.rejectOriginal
           else Outcome.passthrough,
         refreshConfig, s,
         if isAuthError ⟨refreshConfig, resp⟩ = true then [Effect.onRefreshFail] else []⟩ := by
  have hu : isAuthUrl refreshConfig = true := by decide
  cases hae : isAuthError (⟨refreshConfig, resp⟩ : AxiosError)
  · simp [interceptError, hae]
  · simp [interceptError, hae, hu]

lemma episode_success_effects (e : AxiosError) (rest : List AxiosError) (t2 : String)
    (he : eligible e = true) (hrest : ∀ x ∈ rest, eligible x = true) :
    (episode e rest (.success (some t2))).2
      = Effect.invokeRefresh :: Effect.setAccessToken t2 :: Effect.sessionSetToken t2
          :: (rest.map (fun x => Effect.issue (withAuth t2 (markRetry x.config)))
            ++ [Effect.issue (withAuth t2 (markRetry e.config))]) := by
  simp only [episode]
  rw [interceptError_trigger rfl he]
  rw [show (⟨Outcome.trigger, markRetry e.config,
        ⟨true, idle.queue⟩, [Effect.invokeRefresh]⟩ : StepResult).state
      = ⟨true, idle.queue⟩ from rfl]
  rw [runErrors_busy rest ⟨true, idle.queue⟩ rfl hrest]
  simp [settleRefresh, idle, Function.comp]

lemma episode_failure_effects (e : AxiosError) (rest : List AxiosError) (err : AxiosError)
    (he : eligible e = true) (hrest : ∀ x ∈ rest, eligible x = true) :
    (episode e rest (.failure err)).2
      = Effect.invokeRefresh
          :: ((if isAuthError err = true then [Effect.onRefreshFail] else [])
            ++ (rest.map (fun x => Effect.rejectPending (markRetry x.config) (Err.http err))
              ++ [Effect.onRefreshFail, Effect.rejectTrigger (Err.http err)])) := by
  simp only [episode]
  rw [interceptError_trigger rfl he]
  rw [show (⟨Outcome.trigger, markRetry e.config,
        ⟨true, idle.queue⟩, [Effect.invokeRefresh]⟩ : StepResult).state
      = ⟨true, idle.queue⟩ from rfl]
  rw [runErrors_busy rest ⟨true, idle.queue⟩ rfl hrest]
  rw [interceptError_refresh, isAuthError_refresh]
  cases hae : isAuthError err
  · simp [hae, settleRefresh, idle, Function.comp]
  · simp [hae, settleRefresh, idle, Function.comp]

lemma episode_notoken_effects (e : AxiosError) (rest : List AxiosError)
    (he : eligible e = true) (hrest : ∀ x ∈ rest, eligible x = true) :
    (episode e rest (.success none)).2
      = Effect.invokeRefresh
          :: (rest.map (fun x => Effect.rejectPending (markRetry x.config) (Err.js noTokenMsg))
            ++ [Effect.onRefreshFail, Effect.rejectTrigger (Err.js noTokenMsg)]) := by
  simp only [episode]
  rw [interceptError_trigger rfl he]
  rw [show (⟨Outcome.trigger, markRetry e.config,
        ⟨true, idle.queue⟩, [Effect.invokeRefresh]⟩ : StepResult).state
      = ⟨true, idle.queue⟩ from rfl]
  rw [runErrors_busy rest ⟨true, idle.queue⟩ rfl hrest]
  simp [settleRefresh, idle, Function.comp]

lemma episode_state (e : AxiosError) (rest : List AxiosError) (r : RefreshResult) :
    (episode e rest r).1 = idle := by
  rcases r with body | err
  · simp only [episode]
    exact settle_state _ _ _
  · simp only [episode]
    exact settle_state _ _ _

lemma issuedConfigs_cons_invoke (l : List Effect) :
    issuedConfigs (Effect.invokeRefresh :: l) = issuedConfigs l := rfl

lemma rejectedConfigs_cons_invoke (l : List Effect) :
    rejectedConfigs (Effect.invokeRefresh :: l) = rejectedConfigs l := rfl

lemma issuedConfigs_teardown_if (b : Bool) :
    issuedConfigs (if b = true then [Effect.onRefreshFail] else []) = [] := by
  cases b <;> rfl

lemma rejectedConfigs_teardown_if (b : Bool) :
    rejectedConfigs (if b = true then [Effect.onRefreshFail] else []) = [] := by
  cases b <;> rfl

lemma issuedConfigs_map_reject (er : Err) (l : List AxiosError) :
    issuedConfigs (l.map (fun x => Effect.rejectPending (markRetry x.config) er)) = [] := by
  induction l with
  | nil => rfl
  | cons x l ih => simp [issuedConfigs, List.filterMap_cons]

lemma countP_invoke_map_issue (t : String) (l : List AxiosError) :
    (l.map (fun x => Effect.issue (withAuth t (markRetry x.config)))).countP isInvoke = 0 := by
  induction l with
  | nil => simp
  | cons c l ih => simp [List.countP_cons, isInvoke, ih]

lemma countP_invoke_map_reject (er : Err) (l : List AxiosError) :
    (l.map (fun x => Effect.rejectPending (markRetry x.config) er)).countP isInvoke = 0 := by
  induction l with
  | nil => simp
  | cons c l ih => simp [List.countP_cons, isInvoke, ih]

lemma countP_teardown_map_reject (er : Err) (l : List AxiosError) :
    (l.map (fun x => Effect.rejectPending (markRetry x.config) er)).countP isTeardown = 0 := by
  induction l with
  | nil => simp
  | cons c l ih => simp [List.countP_cons, isTeardown, ih]

lemma issuedConfigs_map_issue (t : String) (l : List AxiosError) :
    issuedConfigs (l.map (fun x => Effect.issue (withAuth t (markRetry x.config))))
      = l.map (fun x => withAuth t (markRetry x.config)) := by
  induction l with
  | nil => rfl
  | cons c l ih => simp [issuedConfigs, List.filterMap_cons] at ih ⊢; exact ih

lemma rejectedConfigs_map_reject (er : Err) (l : List AxiosError) :
    rejectedConfigs (l.map (fun x => Effect.rejectPending (markRetry x.config) er))
      = l.map (fun x => markRetry x.config) := by
  induction l with
  | nil => rfl
  | cons c l ih => simp [rejectedConfigs, List.filterMap_cons] at ih ⊢; exact ih

lemma bearer_inj {a b : String} (h : "Bearer " ++ a = "Bearer " ++ b) : a = b := by
  have hd : ("Bearer " ++ a).data = ("Bearer " ++ b).data := congrArg String.data h
  simp only [String.data_append] at hd
  exact String.ext (List.append_cancel_left hd)

lemma issuedConfigs_append (l1 l2 : List Effect) :
    issuedConfigs (l1 ++ l2) = issuedConfigs l1 ++ issuedConfigs l2 := by
  simp [issuedConfigs, List.filterMap_append]

lemma rejectedConfigs_append (l1 l2 : List Effect) :
    rejectedConfigs (l1 ++ l2) = rejectedConfigs l1 ++ rejectedConfigs l2 := by
  simp [rejectedConfigs, List.filterMap_append]

lemma episode_success_issued (e : AxiosError) (rest : List AxiosError) (t2 : String)
    (he : eligible e = true) (hrest : ∀ x ∈ rest, eligible x = true) :
    issuedConfigs (episode e rest (.success (some t2))).2
      = rest.map (fun x => withAuth t2 (markRetry x.config))
          ++ [withAuth t2 (markRetry e.config)] := by
  rw [episode_success_effects e rest t2 he hrest]
  have h0 : issuedConfigs
      (Effect.invokeRefresh :: Effect.setAccessToken t2 :: Effect.sessionSetToken t2
        :: (rest.map (fun x => Effect.issue (withAuth t2 (markRetry x.config)))
          ++ [Effect.issue (withAuth t2 (markRetry e.config))]))
      = issuedConfigs
        (rest.map (fun x => Effect.issue (withAuth t2 (markRetry x.config)))
          ++ [Effect.issue (withAuth t2 (markRetry e.config))]) := rfl
  rw [h0, issuedConfigs_append, issuedConfigs_map_issue]
  rfl

lemma episode_failure_rejected (e : AxiosError) (rest : List AxiosError) (err : AxiosError)
    (he : eligible e = true) (hrest : ∀ x ∈ rest, eligible x = true) :
    rejectedConfigs (episode e rest (.failure err)).2
      = rest.map (fun x => markRetry x.config) := by
  rw [episode_failure_effects e rest err he hrest]
  rw [rejectedConfigs_cons_invoke, rejectedConfigs_append,
    rejectedConfigs_teardown_if, rejectedConfigs_append, rejectedConfigs_map_reject]
  simp [rejectedConfigs]

end PromptLab

namespace PromptLab

/-- Claim C1: for every N ≥ 1 requests that fail with an authorization
error while the coordinator is Idle, the first handler run sets
`isRefreshing` and invokes the refresh exchange within the same atomic
(pre-suspension) step, and across the whole episode the refresh exchange
is invoked exactly once, regardless of how many further failures arrive
while the refresh is in flight. -/
theorem C1_single_flight (e : AxiosError) (rest : List AxiosError)
    (he : eligible e = true) (hrest : ∀ x ∈ rest, eligible x = true) :
    (interceptError idle e).state.isRefreshing = true
    ∧ (interceptError idle e).effects = [Effect.invokeRefresh]
    ∧ (runErrors idle (e :: rest)).2 = [Effect.invokeRefresh]
    ∧ ∀ r : RefreshResult, ((episode e rest r).2.countP isInvoke) = 1 := by
  have h1 := interceptError_trigger (s := idle) (e := e) rfl he
  refine ⟨by rw [h1], by rw [h1], ?_, ?_⟩
  · rw [runErrors, h1]
    rw [show (⟨Outcome.trigger, markRetry e.config, ⟨true, idle.queue⟩,
        [Effect.invokeRefresh]⟩ : StepResult).state = ⟨true, idle.queue⟩ from rfl]
    rw [runErrors_busy rest ⟨true, idle.queue⟩ rfl hrest]
    simp
  · intro r
    rcases r with body | err
    · rcases body with _ | t
      · rw [episode_notoken_effects e rest he hrest]
        simp [List.countP_cons, List.countP_append, isInvoke, countP_invoke_map_reject]
      · rw [episode_success_effects e rest t he hrest]
        simp [List.countP_cons, List.countP_append, isInvoke, countP_invoke_map_issue]
    · rw [episode_failure_effects e rest err he hrest]
      cases hae : isAuthError err <;>
        simp [hae, List.countP_cons, List.countP_append, isInvoke, countP_invoke_map_reject]

/-- Witness for C1 at the concrete two-request episode `failA`, `failB`. -/
theorem C1_witness :
    eligible failA = true ∧ (∀ x ∈ [failB], eligible x = true)
    ∧ ((interceptError idle failA).state.isRefreshing = true
      ∧ (interceptError idle failA).effects = [Effect.invokeRefresh]
      ∧ (runErrors idle (failA :: [failB])).2 = [Effect.invokeRefresh]
      ∧ ∀ r : RefreshResult, ((episode failA [failB] r).2.countP isInvoke) = 1) :=
  ⟨by decide, by decide, C1_single_flight failA [failB] (by decide) (by decide)⟩

/-- Claim C3: when the refresh succeeds with token T2, every request that
failed during the episode — each queued pending request and the trigger —
is re-issued, all of them carry the header value `Bearer T2`, and none
carries a bearer header built from any other (in particular the stale)
token. -/
theorem C3_replay_carries_new_token (e : AxiosError) (rest : List AxiosError) (t2 : String)
    (he : eligible e = true) (hrest : ∀ x ∈ rest, eligible x = true) :
    (issuedConfigs (episode e rest (.success (some t2))).2).length = rest.length + 1
    ∧ (∀ c ∈ issuedConfigs (episode e rest (.success (some t2))).2,
        c.auth = some ("Bearer " ++ t2))
    ∧ (∀ t1, t1 ≠ t2 →
        ∀ c ∈ issuedConfigs (episode e rest (.success (some t2))).2,
          c.auth ≠ some ("Bearer " ++ t1)) := by
  have hiss := episode_success_issued e rest t2 he hrest
  have hmem : ∀ c ∈ issuedConfigs (episode e rest (.success (some t2))).2,
      c.auth = some ("Bearer " ++ t2) := by
    rw [hiss]
    intro c hc
    rcases List.mem_append.mp hc with h | h
    · rcases List.mem_map.mp h with ⟨x, _, rfl⟩
      rfl
    · rcases List.mem_singleton.mp h with rfl
      rfl
  refine ⟨by rw [hiss]; simp, hmem, ?_⟩
  intro t1 hne c hc hcontra
  have h2 := hmem c hc
  rw [h2] at hcontra
  exact hne (bearer_inj (Option.some.inj hcontra.symm))

/-- Witness for C3 at the concrete two-request episode refreshed to T2. -/
theorem C3_witness :
    eligible failA = true ∧ (∀ x ∈ [failB], eligible x = true)
    ∧ ((issuedConfigs (episode failA [failB] (.success (some "T2"))).2).length = 2
      ∧ (∀ c ∈ issuedConfigs (episode failA [failB] (.success (some "T2"))).2,
          c.auth = some ("Bearer " ++ "T2"))
      ∧ (∀ t1, t1 ≠ "T2" →
          ∀ c ∈ issuedConfigs (episode failA [failB] (.success (some "T2"))).2,
            c.auth ≠ some ("Bearer " ++ t1))) :=
  ⟨by decide, by decide, C3_replay_carries_new_token failA [failB] "T2" (by decide) (by decide)⟩

/-- Counterexample to claim C5 as stated: when the refresh exchange itself
fails with status 401, its rejection first passes through the same
response interceptor, whose `/refresh` url branch (lines 19–22 of
`attachTokenRefresh.js`) invokes the forced-logout callback before the
triggering handler's `catch` (line 57) invokes it again — so this episode
performs the session teardown twice, not exactly once. -/
theorem C5_counterexample :
    ((episode failA [failB] (.failure refresh401)).2.countP isTeardown) = 2
    ∧ ((episode failA [failB] (.failure refresh401)).2.countP isTeardown) ≠ 1 := by decide

/-- Claim C5 (amended): on refresh failure the episode rejects every queued
pending request with the refresh error in order, then rejects the
triggering caller with the same error; no replay is issued and the
coordinator returns to Idle. The session-teardown count is independent of
the number of queued requests, but it is once per episode only for refresh
failures that are not authorization errors (no response, or status other
than 401); a 401-status refresh failure performs it twice — once from the
interceptor's own pass over the refresh request's rejection, once from the
catch block. -/
theorem C5_refresh_failure_cleanup (e : AxiosError) (rest : List AxiosError) (err : AxiosError)
    (he : eligible e = true) (hrest : ∀ x ∈ rest, eligible x = true) :
    (episode e rest (.failure err)).2
        = Effect.invokeRefresh
            :: ((if isAuthError err = true then [Effect.onRefreshFail] else [])
              ++ (rest.map (fun x => Effect.rejectPending (markRetry x.config) (Err.http err))
                ++ [Effect.onRefreshFail, Effect.rejectTrigger (Err.http err)]))
    ∧ ((episode e rest (.failure err)).2.countP isTeardown)
        = (if isAuthError err = true then 2 else 1)
    ∧ issuedConfigs (episode e rest (.failure err)).2 = []
    ∧ (episode e rest (.failure err)).1 = idle := by
  have hfx := episode_failure_effects e rest err he hrest
  refine ⟨hfx, ?_, ?_, episode_state e rest _⟩
  · rw [hfx]
    cases hae : isAuthError err <;>
      simp [hae, List.countP_cons, List.countP_append, isTeardown, countP_teardown_map_reject]
  · rw [hfx, issuedConfigs_cons_invoke, issuedConfigs_append, issuedConfigs_teardown_if,
      issuedConfigs_append, issuedConfigs_map_reject]
    rfl

/-- Witness for the amended C5: a two-request episode whose refresh call
fails with status 401, exercising the double-teardown branch. -/
theorem C5_witness :
    eligible failA = true ∧ (∀ x ∈ [failB], eligible x = true)
    ∧ ((episode failA [failB] (.failure refresh401)).2
          = Effect.invokeRefresh
              :: ((if isAuthError refresh401 = true then [Effect.onRefreshFail] else [])
                ++ ([failB].map (fun x =>
                      Effect.rejectPending (markRetry x.config) (Err.http refresh401))
                  ++ [Effect.onRefreshFail, Effect.rejectTrigger (Err.http refresh401)]))
      ∧ ((episode failA [failB] (.failure refresh401)).2.countP isTeardown)
          = (if isAuthError refresh401 = true then 2 else 1)
      ∧ issuedConfigs (episode failA [failB] (.failure refresh401)).2 = []
      ∧ (episode failA [failB] (.failure refresh401)).1 = idle) :=
  ⟨by decide, by decide, C5_refresh_failure_cleanup failA [failB] refresh401 (by decide) (by decide)⟩

/-- Claim C8: the queue built while the refresh is in flight lists the
pending requests in exactly their arrival order, and when the refresh
settles they are released in that same order — as replayed issues (followed
by the trigger) on success, as rejections on failure. Only issuance order
is modelled; completion order of the replayed network calls is outside the
model. -/
theorem C8_fifo_release (e : AxiosError) (rest : List AxiosError) (t2 : String) (err : AxiosError)
    (he : eligible e = true) (hrest : ∀ x ∈ rest, eligible x = true) :
    (runErrors (interceptError idle e).state rest).1.queue
        = rest.map (fun x => markRetry x.config)
    ∧ issuedConfigs (episode e rest (.success (some t2))).2
        = rest.map (fun x => withAuth t2 (markRetry x.config))
            ++ [withAuth t2 (markRetry e.config)]
    ∧ rejectedConfigs (episode e rest (.failure err)).2
        = rest.map (fun x => markRetry x.config) := by
  refine ⟨?_, episode_success_issued e rest t2 he hrest,
    episode_failure_rejected e rest err he hrest⟩
  rw [interceptError_trigger rfl he]
  rw [show (⟨Outcome.trigger, markRetry e.config, ⟨true, idle.queue⟩,
      [Effect.invokeRefresh]⟩ : StepResult).state = ⟨true, idle.queue⟩ from rfl]
  rw [runErrors_busy rest ⟨true, idle.queue⟩ rfl hrest]
  simp [idle]

/-- Witness for C8 at the concrete two-request episode. -/
theorem C8_witness :
    eligible failA = true ∧ (∀ x ∈ [failB], eligible x = true)
    ∧ ((runErrors (interceptError idle failA).state [failB]).1.queue
          = [failB].map (fun x => markRetry x.config)
      ∧ issuedConfigs (episode failA [failB] (.success (some "T2"))).2
          = [failB].map (fun x => withAuth "T2" (markRetry x.config))
              ++ [withAuth "T2" (markRetry failA.config)]
      ∧ rejectedConfigs (episode failA [failB] (.failure netFail)).2
          = [failB].map (fun x => markRetry x.config)) :=
  ⟨by decide, by decide, C8_fifo_release failA [failB] "T2" netFail (by decide) (by decide)⟩

/-- Claim C10: a refresh network call that resolves without an access token
in its body is treated as a refresh failure: every queued pending request
and the triggering caller are rejected with the
`No access token in refresh response` error, the forced-logout teardown
runs once, and the coordinator returns to Idle. -/
theorem C10_missing_token_is_failure (e : AxiosError) (rest : List AxiosError)
    (he : eligible e = true) (hrest : ∀ x ∈ rest, eligible x = true) :
    (episode e rest (.success none)).2
        = Effect.invokeRefresh
            :: (rest.map (fun x => Effect.rejectPending (markRetry x.config)
                  (Err.js "No access token in refresh response"))
              ++ [Effect.onRefreshFail,
                  Effect.rejectTrigger (Err.js "No access token in refresh response")])
    ∧ ((episode e rest (.success none)).2.countP isTeardown) = 1
    ∧ (episode e rest (.success none)).1 = idle := by
  have hfx := episode_notoken_effects e rest he hrest
  rw [show (Err.js "No access token in refresh response") = Err.js noTokenMsg from rfl]
  refine ⟨hfx, ?_, episode_state e rest _⟩
  rw [hfx]
  simp [List.countP_cons, List.countP_append, isTeardown, countP_teardown_map_reject]

/-- Witness for C10: a two-request episode whose refresh response body
carries no token. -/
theorem C10_witness :
    eligible failA = true ∧ (∀ x ∈ [failB], eligible x = true)
    ∧ ((episode failA [failB] (.success none)).2
          = Effect.invokeRefresh
              :: ([failB].map (fun x => Effect.rejectPending (markRetry x.config)
                    (Err.js "No access token in refresh response"))
                ++ [Effect.onRefreshFail,
                    Effect.rejectTrigger (Err.js "No access token in refresh response")])
      ∧ ((episode failA [failB] (.success none)).2.countP isTeardown) = 1
      ∧ (episode failA [failB] (.success none)).1 = idle) :=
  ⟨by decide, by decide, C10_missing_token_is_failure failA [failB] (by decide) (by decide)⟩

end PromptLab

namespace PromptLab

/-- Counterexample to claim C4 as stated: a request that already carries the
retry mark and fails again with 401 is indeed rejected with the original
error and starts no refresh, but — contrary to the claim that the failure
causes no session teardown — the handler does invoke the forced-logout
callback (`onRefreshFail?.()` on line 25 of `attachTokenRefresh.js`). -/
theorem C4_counterexample :
    (interceptError idle retriedReq).outcome = Outcome.rejectOriginal
    ∧ (interceptError idle retriedReq).effects = [Effect.onRefreshFail]
    ∧ Effect.onRefreshFail ∈ (interceptError idle retriedReq).effects := by decide

/-- Claim C4 (amended): for every request already carrying the retry mark
that fails again with an authorization error on a non-login, non-refresh
url, the coordinator rejects it immediately with the original error,
starts no second refresh exchange and leaves the refresh flag and queue
untouched — but it does invoke the forced-logout teardown callback. -/
theorem C4_retry_exhausted (s : CoordState) (e : AxiosError)
    (ha : isAuthError e = true) (hu : isAuthUrl e.config = false)
    (hr : e.config.retry = true) :
    interceptError s e = ⟨.rejectOriginal, e.config, s, [Effect.onRefreshFail]⟩ := by
  simp [interceptError, ha, hu, hr]

/-- Witness for the amended C4 at a concrete retried 401. -/
theorem C4_witness :
    isAuthError ⟨⟨"/api/cases", true, none⟩, some ⟨401⟩⟩ = true
    ∧ isAuthUrl (⟨"/api/cases", true, none⟩ : Config) = false
    ∧ (⟨"/api/cases", true, none⟩ : Config).retry = true
    ∧ interceptError idle ⟨⟨"/api/cases", true, none⟩, some ⟨401⟩⟩
        = ⟨.rejectOriginal, ⟨"/api/cases", true, none⟩, idle, [Effect.onRefreshFail]⟩ :=
  ⟨by decide, by decide, rfl,
    C4_retry_exhausted idle ⟨⟨"/api/cases", true, none⟩, some ⟨401⟩⟩
      (by decide) (by decide) rfl⟩

/-- Claim C7: a failed response that is not an authorization error — no
response object at all, or any status other than 401 — is rethrown
unchanged: the config keeps no retry mark, the refresh flag and the queue
are untouched, and no effect is emitted. -/
theorem C7_non_auth_passthrough (s : CoordState) (e : AxiosError)
    (h : isAuthError e = false) :
    interceptError s e = ⟨.passthrough, e.config, s, []⟩ := by
  simp [interceptError, h]

/-- Witness for C7 at a concrete network failure (no response object). -/
theorem C7_witness :
    isAuthError netFail = false
    ∧ interceptError idle netFail = ⟨.passthrough, netFail.config, idle, []⟩ :=
  ⟨rfl, C7_non_auth_passthrough idle netFail rfl⟩

/-- Counterexample to claim C2 as stated: sign in with remember = true, so
the durability on record is Persistent (`getStorageIsLocal` holds); a
successful refresh to token T2 does not write T2 to the persistent
durability — the stale T1 stays there — and writes T2 to the session
storage instead. -/
theorem C2_counterexample :
    getStorageIsLocal (signInStore emptyBrowser "T1" "alice" true) = true
    ∧ (refreshSuccessStore (signInStore emptyBrowser "T1" "alice" true) "T2").localStore.accessToken
        = some "T1"
    ∧ (refreshSuccessStore (signInStore emptyBrowser "T1" "alice" true) "T2").localStore.accessToken
        ≠ some "T2"
    ∧ (refreshSuccessStore (signInStore emptyBrowser "T1" "alice" true) "T2").sessionStore.accessToken
        = some "T2" := by decide

/-- Claim C2 (amended): on refresh success the new access token is written
to the session-scoped (ephemeral) storage unconditionally — regardless of
the durability on record — and the in-memory token is updated to the same
value; the persistent storage and the stored user record are left
unchanged. -/
theorem C2_refresh_write_is_session_scoped (b : Browser) (t : String) :
    (refreshSuccessStore b t).memToken = some t
    ∧ (refreshSuccessStore b t).sessionStore.accessToken = some t
    ∧ (refreshSuccessStore b t).localStore = b.localStore
    ∧ (refreshSuccessStore b t).sessionStore.userJson = b.sessionStore.userJson
    ∧ (refreshSuccessStore b t).memUser = b.memUser :=
  ⟨rfl, rfl, rfl, rfl, rfl⟩

/-- Counterexample to claim C6 as stated: after a sign-in that put the user
record in memory, the forced-logout callback leaves the in-memory user
record in place (`auth.setUser` is never called), whereas `signOut` clears
it. -/
theorem C6_counterexample :
    (onForcedLogoutStore (signInStore emptyBrowser "T1" "alice" false)).memUser = some "alice"
    ∧ (signOutStore (signInStore emptyBrowser "T1" "alice" false)).memUser = none := by decide

/-- Claim C6 (amended): the forced-logout callback matches `signOut` on
both storages — it removes the access token and user record from both
durabilities and the durability flag from the persistent storage — and
clears the in-memory access token, but unlike `signOut` it leaves the
in-memory user record untouched (and calls no logout exchange). -/
theorem C6_forced_logout_behaviour (b : Browser) :
    (onForcedLogoutStore b).sessionStore = (signOutStore b).sessionStore
    ∧ (onForcedLogoutStore b).localStore = (signOutStore b).localStore
    ∧ (onForcedLogoutStore b).localStore.accessToken = none
    ∧ (onForcedLogoutStore b).localStore.userJson = none
    ∧ (onForcedLogoutStore b).localStore.authStorage = none
    ∧ (onForcedLogoutStore b).sessionStore.accessToken = none
    ∧ (onForcedLogoutStore b).sessionStore.userJson = none
    ∧ (onForcedLogoutStore b).memToken = none
    ∧ (onForcedLogoutStore b).memUser = b.memUser :=
  ⟨rfl, rfl, rfl, rfl, rfl, rfl, rfl, rfl, rfl⟩

/-- Claim C9: signing in with remember = false, from a state whose
persistent storage holds no access token or user record, stores the
credential only in the ephemeral durability: the subsequent Credential
Store read finds the token and user record (in sessionStorage), and the
persistent durability still holds neither. -/
theorem C9_signin_ephemeral (b : Browser) (tok uJson : String)
    (h1 : b.localStore.accessToken = none) (h2 : b.localStore.userJson = none) :
    readStore (signInStore b tok uJson false) = (some tok, some uJson)
    ∧ (signInStore b tok uJson false).localStore.accessToken = none
    ∧ (signInStore b tok uJson false).localStore.userJson = none
    ∧ (signInStore b tok uJson false).sessionStore.accessToken = some tok
    ∧ (signInStore b tok uJson false).sessionStore.userJson = some uJson := by
  have hsl : ((("session" : String)) == "local") = false := by decide
  refine ⟨?_, by simp [signInStore, h1], by simp [signInStore, h2], rfl, rfl⟩
  simp [readStore, signInStore, getStorageIsLocal, hsl]

/-- Witness for C9 from the fresh browser state. -/
theorem C9_witness :
    emptyBrowser.localStore.accessToken = none
    ∧ emptyBrowser.localStore.userJson = none
    ∧ (readStore (signInStore emptyBrowser "T1" "alice" false) = (some "T1", some "alice")
      ∧ (signInStore emptyBrowser "T1" "alice" false).localStore.accessToken = none
      ∧ (signInStore emptyBrowser "T1" "alice" false).localStore.userJson = none
      ∧ (signInStore emptyBrowser "T1" "alice" false).sessionStore.accessToken = some "T1"
      ∧ (signInStore emptyBrowser "T1" "alice" false).sessionStore.userJson = some "alice") :=
  ⟨rfl, rfl, C9_signin_ephemeral emptyBrowser "T1" "alice" rfl rfl⟩

end PromptLab
